import Mathlib

/-!
Shallow embedding of the deterministic rollback-simulation core of the
repository (src/src/main.rs plus the round/physics/checksum modules it
declares). Constants, the rollback registration list, the system labels and
the stage/system ordering constraints come directly from src/src/main.rs.
The bodies of the round, physics and checksum modules are not present in the
provided sources, so the corresponding operations are modelled from the
specification, as marked on each definition.
-/

/-- Constant NUM_PLAYERS from src/src/main.rs line 22. -/
def NUM_PLAYERS : Nat := 2

/-- Constant FPS from src/src/main.rs line 23: ticks per second. -/
def FPS : Nat := 60

/-- Constant MAX_PREDICTION from src/src/main.rs line 26. -/
def MAX_PREDICTION : Nat := 12

/-- Constant INPUT_DELAY from src/src/main.rs line 27. -/
def INPUT_DELAY : Nat := 2

/-- Constant CHECK_DISTANCE from src/src/main.rs line 28. -/
def CHECK_DISTANCE : Nat := 2

/-- Fixed tick duration: one tick lasts 1 / FPS seconds. -/
def DT : ℚ := 1 / (FPS : ℚ)

/-- Two-dimensional vector with exact rational coordinates, standing in for
the deterministic fixed-point-equivalent arithmetic the spec requires. -/
structure Vec2 where
  x : ℚ
  y : ℚ
deriving DecidableEq

/-- Componentwise vector addition. -/
def Vec2.add (a b : Vec2) : Vec2 := ⟨a.x + b.x, a.y + b.y⟩

/-- Scalar multiplication of a vector. -/
def Vec2.smul (k : ℚ) (v : Vec2) : Vec2 := ⟨k * v.x, k * v.y⟩

/-- Player index: the game has exactly NUM_PLAYERS = 2 players. -/
inductive PIdx where
  | zero
  | one
deriving DecidableEq

/-- Modelled from the spec: per-player per-tick Input Record, a fixed-size
bitfield of button state (round::resources::Input is not in the provided
sources). Bit 0 = up, 1 = down, 2 = left, 3 = right. -/
structure Input where
  bits : Nat
deriving DecidableEq

/-- The neutral (no buttons pressed) input record. -/
def neutralInput : Input := ⟨0⟩

/-- The pair of Input Records for one tick, one per player index. -/
structure InputPair where
  i0 : Input
  i1 : Input
deriving DecidableEq

/-- Player entity state: position, velocity, previous position, accumulated
force, presentation transform, attacker-role flag and alive flag. Pos, Vel,
PrevPos, Transform and AttackerState are the rollback-registered component
types of src/src/main.rs lines 86-90. -/
structure Player where
  pos : Vec2
  vel : Vec2
  prevPos : Vec2
  force : Vec2
  transform : Vec2
  attacker : Bool
  alive : Bool
deriving DecidableEq

/-- The fixed two-player entity set. -/
structure Players where
  p0 : Player
  p1 : Player
deriving DecidableEq

/-- Look up a player by index. -/
def Players.get (ps : Players) : PIdx → Player
  | .zero => ps.p0
  | .one => ps.p1

/-- Replace the player at an index. -/
def Players.set (ps : Players) (i : PIdx) (p : Player) : Players :=
  match i with
  | .zero => { ps with p0 := p }
  | .one => { ps with p1 := p }

/-- Round lifecycle phase, the RoundState registered at src/src/main.rs
line 93: InterludeStart, Interlude, InterludeEnd, RoundStart, Round,
RoundEnd. -/
inductive RoundStage where
  | interludeStart
  | interlude
  | interludeEnd
  | roundStart
  | round
  | roundEnd
deriving DecidableEq

/-- Round-scoped mutable data, the RoundData registered at src/src/main.rs
line 94: elapsed ticks within the phase, per-player win counts and the
winner of the current round, if decided. -/
structure RoundData where
  phaseTicks : Nat
  wins0 : Nat
  wins1 : Nat
  winner : Option PIdx
deriving DecidableEq

/-- Full replicated simulation state: tick counter (FrameCount), the player
entities, the stored per-tick Checksum, the RoundState and the RoundData —
exactly the resource/component set registered for rollback in
src/src/main.rs lines 86-94. -/
structure State where
  frameCount : Nat
  players : Players
  checksum : Nat
  roundState : RoundStage
  roundData : RoundData
deriving DecidableEq

/-! ## Phase run criteria (round module; gating mirrors src/src/main.rs lines 104-153) -/

/-- Modelled from the spec: run criterion of the interlude-start system set
(round module not in the provided sources); true exactly when the current
phase is InterludeStart. -/
def on_interlude_start (st : RoundStage) : Bool := st == RoundStage.interludeStart

/-- Modelled from the spec: run criterion of the interlude system set. -/
def on_interlude (st : RoundStage) : Bool := st == RoundStage.interlude

/-- Modelled from the spec: run criterion of the interlude-end system set. -/
def on_interlude_end (st : RoundStage) : Bool := st == RoundStage.interludeEnd

/-- Modelled from the spec: run criterion of the round-start system set. -/
def on_round_start (st : RoundStage) : Bool := st == RoundStage.roundStart

/-- Modelled from the spec: run criterion of the round system set. -/
def on_round (st : RoundStage) : Bool := st == RoundStage.round

/-- Modelled from the spec: run criterion of the round-end system set. -/
def on_round_end (st : RoundStage) : Bool := st == RoundStage.roundEnd

/-- The six phase run-criteria flags of a tick, in the registration order of
src/src/main.rs lines 104-153. -/
def phaseFlags (st : RoundStage) : List Bool :=
  [on_interlude_start st, on_interlude st, on_interlude_end st,
   on_round_start st, on_round st, on_round_end st]

/-- Modelled from the spec: the guard demanded by the spec for the phase
predicates — if the number of matching phase predicates differs from one the
tick halts with a fatal error instead of continuing. -/
def phaseGuard (flags : List Bool) : Except String Unit :=
  if flags.count true = 1 then Except.ok () else Except.error "invalid phase state"

/-! ## Round-module systems (modelled: round module not in provided sources) -/

/-- Modelled from the spec: length of the pre-round interlude countdown in
ticks (a phase-specific timer of Round Data). -/
def INTERLUDE_LENGTH : Nat := 60

/-- Modelled from the spec: one-shot interlude setup — resets the per-round
timer and moves the phase to Interlude. -/
def setup_interlude (s : State) : State :=
  { s with roundData := { s.roundData with phaseTicks := 0, winner := none },
           roundState := RoundStage.interlude }

/-- Modelled from the spec: per-tick interlude logic — decrements the
countdown (counts elapsed phase ticks) and moves to InterludeEnd once the
countdown has elapsed. -/
def run_interlude (s : State) : State :=
  let t := s.roundData.phaseTicks + 1
  { s with roundData := { s.roundData with phaseTicks := t },
           roundState := if INTERLUDE_LENGTH ≤ t then RoundStage.interludeEnd
                         else RoundStage.interlude }

/-- Modelled from the spec: one-shot teardown of interlude-only state;
exits to RoundStart. -/
def cleanup_interlude (s : State) : State :=
  { s with roundState := RoundStage.roundStart }

/-- Modelled from the spec: initial player entity spawned at round start. -/
def initialPlayer : Player :=
  { pos := ⟨0, 0⟩, vel := ⟨0, 0⟩, prevPos := ⟨0, 0⟩, force := ⟨0, 0⟩,
    transform := ⟨0, 0⟩, attacker := false, alive := true }

/-- Modelled from the spec: spawns the two player entities at round start;
pure construction from round configuration. -/
def spawn_players (s : State) : State :=
  { s with players :=
      { p0 := { initialPlayer with pos := ⟨-2, 0⟩, prevPos := ⟨-2, 0⟩ },
        p1 := { initialPlayer with pos := ⟨2, 0⟩, prevPos := ⟨2, 0⟩ } } }

/-- Modelled from the spec: spawns the arena/world entities at round start;
the world geometry is static and carries no replicated mutable state in this
model, so the simulation state is unchanged. -/
def spawn_world (s : State) : State := s

/-- Modelled from the spec: starts the live round — resets the phase tick
counter and the round winner and moves the phase to Round. -/
def start_round (s : State) : State :=
  { s with roundData := { s.roundData with phaseTicks := 0, winner := none },
           roundState := RoundStage.round }

/-- Modelled from the spec: the pure attacker-role rule — roles alternate
with the number of rounds played so far, so each player's attacker flag is a
pure function of Round Data. -/
def attackerRule (rd : RoundData) (i : PIdx) : Bool :=
  match i with
  | .zero => (rd.wins0 + rd.wins1) % 2 == 0
  | .one => (rd.wins0 + rd.wins1) % 2 == 1

/-- Modelled from the spec: updates each player's attacker/defender flag by
the pure role rule, before inputs are applied. -/
def update_attacker_state (s : State) : State :=
  { s with players :=
      { p0 := { s.players.p0 with attacker := attackerRule s.roundData .zero },
        p1 := { s.players.p1 with attacker := attackerRule s.roundData .one } } }

/-- Modelled from the spec: decodes one Input Record bitfield into the force
applied to the owning player's entity. -/
def input_force (i : Input) : Vec2 :=
  ⟨(if i.bits.testBit 3 then 1 else 0) - (if i.bits.testBit 2 then 1 else 0),
   (if i.bits.testBit 0 then 1 else 0) - (if i.bits.testBit 1 then 1 else 0)⟩

/-- Modelled from the spec: applies one player's Input Record to that
player's own entity — it only sets the accumulated force consumed by the
physics step later in the same tick. -/
def apply_one_input (p : Player) (i : Input) : Player :=
  { p with force := input_force i }

/-- Modelled from the spec: applies the Input Record of player i to player
i's entity only, leaving every other entity untouched. -/
def apply_record (ps : Players) (i : PIdx) (r : Input) : Players :=
  ps.set i (apply_one_input (ps.get i) r)

/-- Modelled from the spec: the Input Applier — applies each player's record
to that player's own entity, in fixed player-index order. -/
def apply_inputs (s : State) (inp : InputPair) : State :=
  { s with players := apply_record (apply_record s.players .zero inp.i0) .one inp.i1 }

/-! ## Physics step (modelled: physics module not in provided sources) -/

/-- Modelled from the spec: semi-implicit (symplectic) integration of one
entity over one fixed tick — the previous position is recorded before the
update, the velocity is updated from the accumulated force first, and the
position is then updated from the NEW velocity. -/
def integrateEntity (p : Player) : Player :=
  let newVel := Vec2.add p.vel (Vec2.smul DT p.force)
  { p with prevPos := p.pos, vel := newVel, pos := Vec2.add p.pos (Vec2.smul DT newVel) }

/-- Modelled from the spec: the per-tick physics movement system — advances
every player entity by one symplectic integration step. -/
def move_players (s : State) : State :=
  { s with players := { p0 := integrateEntity s.players.p0,
                        p1 := integrateEntity s.players.p1 } }

/-! ## Round-progress evaluation (modelled: round module not in provided sources) -/

/-- The winner read off the list of still-alive players: the unique alive
player's index if there is exactly one, otherwise no winner. -/
def singletonWinner (l : List (PIdx × Player)) : Option PIdx :=
  match l with
  | [w] => some w.1
  | _ => none

/-- Modelled from the spec: the pure Round-Progress Evaluator outcome over
the full (index, player) set — the round has ended when some player is
eliminated, and the winner is the unique still-alive player if there is
exactly one. It evaluates all players (via countP/filter over the whole
list), never short-circuiting on the first match. -/
def round_outcome (l : List (PIdx × Player)) : Bool × Option PIdx :=
  (decide (0 < l.countP fun pp => !pp.2.alive),
   if 0 < l.countP (fun pp => !pp.2.alive)
   then singletonWinner (l.filter fun pp => pp.2.alive)
   else none)

/-- The (index, player) list of a state, in fixed player-index order. -/
def playerList (s : State) : List (PIdx × Player) :=
  [(PIdx.zero, s.players.p0), (PIdx.one, s.players.p1)]

/-- Modelled from the spec: the Round-Progress Evaluator system — writes the
declared outcome into Round Data, and moves the phase to RoundEnd when the
round has ended. -/
def check_round_end (s : State) : State :=
  let o := round_outcome (playerList s)
  if o.1 then
    { s with roundData := { s.roundData with winner := o.2 },
             roundState := RoundStage.roundEnd }
  else s

/-- Modelled from the spec: one-shot round cleanup — despawns the players
(reset to initial), records the score for the round winner and exits to
InterludeStart. -/
def cleanup_round (s : State) : State :=
  { s with players := { p0 := initialPlayer, p1 := initialPlayer },
           roundData := { s.roundData with
             wins0 := s.roundData.wins0 +
               (match s.roundData.winner with | some PIdx.zero => 1 | _ => 0),
             wins1 := s.roundData.wins1 +
               (match s.roundData.winner with | some PIdx.one => 1 | _ => 0) },
           roundState := RoundStage.interludeStart }

/-! ## Checksum (modelled: checksum module not in provided sources) -/

/-- Injective encoding of an integer as a natural number, for checksum
folding. -/
def encInt : Int → Nat
  | Int.ofNat n => 2 * n
  | Int.negSucc n => 2 * n + 1

/-- Injective encoding of a rational as a natural number (numerator paired
with denominator). -/
def encRat (q : ℚ) : Nat := Nat.pair (encInt q.num) q.den

/-- Encoding of a vector as its two coordinate encodings, x first. -/
def encVec (v : Vec2) : List Nat := [encRat v.x, encRat v.y]

/-- Encoding of a boolean flag. -/
def encBool (b : Bool) : Nat := if b then 1 else 0

/-- Encoding of an optional player index. -/
def encWinner : Option PIdx → Nat
  | none => 0
  | some PIdx.zero => 1
  | some PIdx.one => 2

/-- Modelled from the spec: the fields a player contributes to the checksum,
in fixed order — position, velocity, role flag, alive flag. -/
def encPlayerFields (p : Player) : List Nat :=
  encVec p.pos ++ encVec p.vel ++ [encBool p.attacker, encBool p.alive]

/-- Modelled from the spec: the fields Round Data contributes to the
checksum, in fixed order. -/
def encRoundDataFields (rd : RoundData) : List Nat :=
  [rd.phaseTicks, rd.wins0, rd.wins1, encWinner rd.winner]

/-- Modelled from the spec: the fixed deterministic field order the checksum
folds — the tick counter, then each player's fields in player-index order,
then Round Data. Nothing outside the replicated state appears here. -/
def checksumFieldList (s : State) : List Nat :=
  s.frameCount :: (encPlayerFields s.players.p0 ++ encPlayerFields s.players.p1
    ++ encRoundDataFields s.roundData)

/-- Width of the checksum digest in bits. -/
def CHECKSUM_WIDTH : Nat := 64

/-- Modelled from the spec: the order-sensitive sequential hash-combine step
(FNV-style multiply-and-add, reduced to the fixed digest width). -/
def hashCombine (h v : Nat) : Nat := (h * 1099511628211 + v) % 2 ^ CHECKSUM_WIDTH

/-- Seed of the sequential hash fold. -/
def CHECKSUM_SEED : Nat := 14695981039346656037

/-- Modelled from the spec: the per-tick checksum digest — folds the fixed
field list with the sequential hash-combine. -/
def checksumState (s : State) : Nat :=
  (checksumFieldList s).foldl hashCombine CHECKSUM_SEED

/-- Modelled from the spec: the Checksum Accumulator system checksum_players
— stores the digest of the resulting state into the Checksum resource. -/
def checksum_players (s : State) : State :=
  { s with checksum := checksumState s }

/-- The projection of the state onto exactly the fields the checksum folds:
tick counter, per-player position/velocity/role/alive in player-index order,
and Round Data. -/
def checksummedProj (s : State) :
    Nat × (Vec2 × Vec2 × Bool × Bool) × (Vec2 × Vec2 × Bool × Bool) × RoundData :=
  (s.frameCount,
   (s.players.p0.pos, s.players.p0.vel, s.players.p0.attacker, s.players.p0.alive),
   (s.players.p1.pos, s.players.p1.vel, s.players.p1.attacker, s.players.p1.alive),
   s.roundData)

/-! ## The per-tick pipeline -/

/-- Modelled from the spec: dispatches the system set of the unique matching
phase, mirroring the rollback schedule of src/src/main.rs lines 95-154 — in
the Round phase the fixed order is attacker-role update, input application,
physics movement, round-progress evaluation. -/
def dispatchPhase (s : State) (inp : InputPair) : State :=
  match s.roundState with
  | RoundStage.interludeStart => setup_interlude s
  | RoundStage.interlude => run_interlude s
  | RoundStage.interludeEnd => cleanup_interlude s
  | RoundStage.roundStart => start_round (spawn_world (spawn_players s))
  | RoundStage.round => check_round_end (move_players (apply_inputs (update_attacker_state s) inp))
  | RoundStage.roundEnd => cleanup_round s

/-- Modelled from the spec: the ROLLBACK_SYSTEMS stage of a tick — checks
the phase-predicate invariant and runs the matching phase's system set. -/
def runRollbackSystems (s : State) (inp : InputPair) : Except String State :=
  match phaseGuard (phaseFlags s.roundState) with
  | Except.error e => Except.error e
  | Except.ok _ => Except.ok (dispatchPhase s inp)

/-- Modelled from the spec: one full per-tick pipeline invocation — the tick
counter advances exactly once, the phase-gated rollback systems run, and the
Checksum Accumulator runs last over the resulting state. -/
def tickPipeline (s : State) (inp : InputPair) : Except String State :=
  match runRollbackSystems { s with frameCount := s.frameCount + 1 } inp with
  | Except.error e => Except.error e
  | Except.ok s2 => Except.ok (checksum_players s2)

/-- Modelled from the spec: runs the pipeline over a fixed input sequence
from a snapshot, collecting the per-tick checksum trace. -/
def runTrace (s : State) (ins : List InputPair) : Except String (State × List Nat) :=
  match ins with
  | [] => Except.ok (s, [])
  | i :: rest =>
    match tickPipeline s i with
    | Except.error e => Except.error e
    | Except.ok s2 =>
      match runTrace s2 rest with
      | Except.error e => Except.error e
      | Except.ok (sEnd, cks) => Except.ok (sEnd, s2.checksum :: cks)

/-! ## Input delay, rollback window, registration, schedule ordering -/

/-- Modelled from the spec: the input stream actually applied by the
pipeline — the record applied at tick t was sampled INPUT_DELAY ticks
earlier; before any sampled input can have arrived the neutral default is
applied. -/
def appliedInput (sampled : Nat → InputPair) (t : Nat) : InputPair :=
  if t < INPUT_DELAY then ⟨neutralInput, neutralInput⟩
  else sampled (t - INPUT_DELAY)

/-- Modelled from the spec: the first tick at which an input sampled at tick
T is applied. -/
def firstAppliedTick (T : Nat) : Nat := T + INPUT_DELAY

/-- Modelled from the spec: a rollback request from the external collaborator
— resimulate a given number of ticks from a restored snapshot; a request
deeper than the prediction window MAX_PREDICTION is a capacity error,
otherwise the pipeline is simply re-run over the inputs. -/
def rollbackRequest (snapshot : State) (ins : List InputPair) (depth : Nat) :
    Except String (State × List Nat) :=
  if MAX_PREDICTION < depth then Except.error "rollback beyond prediction window"
  else runTrace snapshot (ins.take depth)

/-- The types registered for rollback snapshot/restore in src/src/main.rs
lines 86-94. -/
inductive RollbackType where
  | attackerStateT
  | transformT
  | posT
  | velT
  | prevPosT
  | frameCountT
  | checksumT
  | roundStateT
  | roundDataT
deriving DecidableEq

/-- The rollback registration list, in the exact order of the
register_rollback_type calls in src/src/main.rs lines 86-94. -/
def registered_rollback_types : List RollbackType :=
  [RollbackType.attackerStateT, RollbackType.transformT, RollbackType.posT,
   RollbackType.velT, RollbackType.prevPosT, RollbackType.frameCountT,
   RollbackType.checksumT, RollbackType.roundStateT, RollbackType.roundDataT]

/-- Modelled from the spec: restoring a snapshot fully overwrites the prior
state with the saved one — no residual fields. -/
def restore_snapshot (_current snapshot : State) : State := snapshot

/-- The gameplay systems of the Round phase plus the Checksum Accumulator,
as scheduled in src/src/main.rs lines 132-159. -/
inductive GameSystem where
  | updateAttackerStateS
  | applyInputsS
  | movePlayersS
  | checkRoundEndS
  | checksumPlayersS
deriving DecidableEq

/-- The ordering constraints declared in src/src/main.rs: within the Round
system set, apply_inputs is labelled after update_attacker_state,
move_players after apply_inputs and check_round_end after move_players
(lines 135-146); and the CHECKSUM_UPDATE stage runs after the
ROLLBACK_SYSTEMS stage (lines 155-159), so every Round system precedes
checksum_players. -/
def scheduleConstraints : List (GameSystem × GameSystem) :=
  [(GameSystem.updateAttackerStateS, GameSystem.applyInputsS),
   (GameSystem.applyInputsS, GameSystem.movePlayersS),
   (GameSystem.movePlayersS, GameSystem.checkRoundEndS),
   (GameSystem.updateAttackerStateS, GameSystem.checksumPlayersS),
   (GameSystem.applyInputsS, GameSystem.checksumPlayersS),
   (GameSystem.movePlayersS, GameSystem.checksumPlayersS),
   (GameSystem.checkRoundEndS, GameSystem.checksumPlayersS)]

/-- An execution order of the per-tick systems respects the declared
schedule constraints when, for every declared pair, the first system runs
strictly before the second. -/
def respectsConstraints (order : List GameSystem) : Prop :=
  ∀ c ∈ scheduleConstraints, order.indexOf c.1 < order.indexOf c.2

/-- A concrete initial state: match begin, interlude-start phase, fresh
round data, no players spawned yet. -/
def initialState : State :=
  { frameCount := 0,
    players := { p0 := initialPlayer, p1 := initialPlayer },
    checksum := 0,
    roundState := RoundStage.interludeStart,
    roundData := { phaseTicks := 0, wins0 := 0, wins1 := 0, winner := none } }

/-- Update player 0 of a state through a function. -/
def withP0 (f : Player → Player) (s : State) : State :=
  { s with players := { s.players with p0 := f s.players.p0 } }

/-- Update player 1 of a state through a function. -/
def withP1 (f : Player → Player) (s : State) : State :=
  { s with players := { s.players with p1 := f s.players.p1 } }

/-- An eliminated player, for concrete round-outcome evaluations. -/
def deadPlayer : Player := { initialPlayer with alive := false }

/-- A concrete state in the Round phase. -/
def roundState0 : State := { initialState with roundState := RoundStage.round }

/-- The execution order the scheduler of src/src/main.rs produces for the
Round-phase tick. -/
def canonicalOrder : List GameSystem :=
  [GameSystem.updateAttackerStateS, GameSystem.applyInputsS, GameSystem.movePlayersS,
   GameSystem.checkRoundEndS, GameSystem.checksumPlayersS]

/-! ## Helper lemmas -/

/-- A nonempty sequential hash fold ends with the modular combine, so it is
bounded by the digest width. -/
theorem foldl_hashCombine_lt (l : List Nat) (h : Nat) (hne : l ≠ []) :
    l.foldl hashCombine h < 2 ^ CHECKSUM_WIDTH := by
  induction l generalizing h with
  | nil => exact absurd rfl hne
  | cons x xs ih =>
    rw [List.foldl_cons]
    cases xs with
    | nil =>
      show hashCombine h x < 2 ^ CHECKSUM_WIDTH
      unfold hashCombine
      have h2 : 0 < 2 ^ CHECKSUM_WIDTH := pow_pos (by norm_num) _
      exact Nat.mod_lt _ h2
    | cons y ys =>
      exact ih (hashCombine h x) (by simp)

/-- The unique-alive-winner read-off is invariant under permutation of the
player list. -/
theorem singletonWinner_perm (l l' : List (PIdx × Player)) (h : l.Perm l') :
    singletonWinner l = singletonWinner l' := by
  cases l with
  | nil =>
    have : l' = [] := h.symm.eq_nil
    rw [this]
  | cons x xs =>
    cases xs with
    | nil =>
      have : l' = [x] := List.perm_singleton.mp h.symm
      rw [this]
    | cons y ys =>
      cases l' with
      | nil => exact absurd h.length_eq (by simp)
      | cons a as =>
        cases as with
        | nil => exact absurd h.length_eq (by simp)
        | cons b bs => rfl

/-! ## Claim theorems -/

/-- C2: for every Round Data / phase value, exactly one of the six phase
run-criteria predicates (on_interlude_start, on_interlude, on_interlude_end,
on_round_start, on_round, on_round_end) evaluates true on a tick — they are
mutually exclusive and jointly exhaustive — and a state where none or more
than one matches halts with a fatal error, while every valid state runs the
matching phase's systems. -/
theorem C2_phase_exhaustive :
    (∀ st : RoundStage, (phaseFlags st).count true = 1) ∧
    (∀ flags : List Bool, flags.count true ≠ 1 →
      phaseGuard flags = Except.error "invalid phase state") ∧
    (∀ (s : State) (inp : InputPair),
      runRollbackSystems s inp = Except.ok (dispatchPhase s inp)) := by
  refine ⟨?_, ?_, ?_⟩
  · intro st
    cases st <;> decide
  · intro flags hf
    unfold phaseGuard
    rw [if_neg hf]
  · intro s inp
    have h1 : (phaseFlags s.roundState).count true = 1 := by
      cases s.roundState <;> decide
    unfold runRollbackSystems phaseGuard
    rw [if_pos h1]

/-- Witness for C2 at concrete inputs: the Round phase matches exactly one
predicate, and a flag vector with two matching phases is rejected with the
fatal error. -/
theorem C2_phase_exhaustive_witness :
    (phaseFlags RoundStage.round).count true = 1 ∧
    phaseGuard [true, true, false, false, false, false] =
      Except.error "invalid phase state" ∧
    runRollbackSystems roundState0 ⟨⟨0⟩, ⟨0⟩⟩ =
      Except.ok (dispatchPhase roundState0 ⟨⟨0⟩, ⟨0⟩⟩) :=
  ⟨C2_phase_exhaustive.1 RoundStage.round,
   C2_phase_exhaustive.2.1 [true, true, false, false, false, false] (by decide),
   C2_phase_exhaustive.2.2 roundState0 ⟨⟨0⟩, ⟨0⟩⟩⟩

/-- C5: an input sampled at tick T is first applied at tick
T + INPUT_DELAY with INPUT_DELAY = 2, and is never applied at any earlier
tick — the applied input at every tick before T + INPUT_DELAY is unaffected
by the sample taken at T. -/
theorem C5_input_delay :
    INPUT_DELAY = 2 ∧
    (∀ (sampled : Nat → InputPair) (T : Nat),
      appliedInput sampled (firstAppliedTick T) = sampled T) ∧
    (∀ (s1 s2 : Nat → InputPair) (T t : Nat), t < firstAppliedTick T →
      (∀ u, u ≠ T → s1 u = s2 u) → appliedInput s1 t = appliedInput s2 t) := by
  refine ⟨rfl, ?_, ?_⟩
  · intro sampled T
    unfold appliedInput firstAppliedTick INPUT_DELAY
    rw [if_neg (by omega), Nat.add_sub_cancel]
  · intro s1 s2 T t ht hagree
    unfold firstAppliedTick INPUT_DELAY at ht
    unfold appliedInput
    by_cases h2 : t < INPUT_DELAY
    · rw [if_pos h2, if_pos h2]
    · rw [if_neg h2, if_neg h2]
      apply hagree
      unfold INPUT_DELAY at h2
      unfold INPUT_DELAY
      omega

/-- Witness for C5 at concrete inputs: the sample taken at tick 5 is applied
at tick 7, and replacing the tick-5 sample does not change what is applied
at tick 6. -/
theorem C5_input_delay_witness :
    appliedInput (fun n => ⟨⟨n⟩, ⟨n⟩⟩) (firstAppliedTick 5) = ⟨⟨5⟩, ⟨5⟩⟩ ∧
    appliedInput (fun n => ⟨⟨n⟩, ⟨n⟩⟩) 6 =
      appliedInput (fun n => if n = 5 then ⟨⟨99⟩, ⟨99⟩⟩ else ⟨⟨n⟩, ⟨n⟩⟩) 6 :=
  ⟨C5_input_delay.2.1 (fun n => ⟨⟨n⟩, ⟨n⟩⟩) 5,
   C5_input_delay.2.2 (fun n => ⟨⟨n⟩, ⟨n⟩⟩) (fun n => if n = 5 then ⟨⟨99⟩, ⟨99⟩⟩ else ⟨⟨n⟩, ⟨n⟩⟩)
     5 6 (by decide) (fun u hu => by simp [hu])⟩

/-- C9: the prediction window bound is MAX_PREDICTION = 12 and the checksum
comparison distance is CHECK_DISTANCE = 2; a rollback request within the
window replays the pipeline and reproduces exactly the forward run from the
snapshot, while a request beyond the window is a capacity error. -/
theorem C9_prediction_window :
    MAX_PREDICTION = 12 ∧ CHECK_DISTANCE = 2 ∧
    (∀ (s : State) (ins : List InputPair) (depth : Nat), depth ≤ MAX_PREDICTION →
      rollbackRequest s ins depth = runTrace s (ins.take depth)) ∧
    (∀ (s : State) (ins : List InputPair) (depth : Nat), MAX_PREDICTION < depth →
      rollbackRequest s ins depth = Except.error "rollback beyond prediction window") := by
  refine ⟨rfl, rfl, ?_, ?_⟩
  · intro s ins depth hd
    unfold rollbackRequest
    rw [if_neg (by omega)]
  · intro s ins depth hd
    unfold rollbackRequest
    rw [if_pos hd]

/-- Witness for C9 at concrete inputs: a depth-3 request replays the forward
run; a depth-13 request is the capacity error. -/
theorem C9_prediction_window_witness :
    rollbackRequest initialState [] 3 = runTrace initialState (List.take 3 []) ∧
    rollbackRequest initialState [] 13 = Except.error "rollback beyond prediction window" :=
  ⟨C9_prediction_window.2.2.1 initialState [] 3 (by decide),
   C9_prediction_window.2.2.2 initialState [] 13 (by decide)⟩

/-- C10: the rollback-registered state set is exactly {AttackerState,
Transform, Pos, Vel, PrevPos, FrameCount, Checksum, RoundState, RoundData} —
every registrable type is in the list, with no duplicates, and in particular
the per-tick Checksum, the presentation Transform and the previous-position
component are registered; restoring a snapshot overwrites them along with
all gameplay state. -/
theorem C10_rollback_registration :
    (∀ t : RollbackType, t ∈ registered_rollback_types) ∧
    registered_rollback_types.Nodup ∧
    RollbackType.checksumT ∈ registered_rollback_types ∧
    RollbackType.transformT ∈ registered_rollback_types ∧
    RollbackType.prevPosT ∈ registered_rollback_types ∧
    (∀ current snapshot : State,
      restore_snapshot current snapshot = snapshot ∧
      (restore_snapshot current snapshot).checksum = snapshot.checksum ∧
      (restore_snapshot current snapshot).players.p0.transform =
        snapshot.players.p0.transform ∧
      (restore_snapshot current snapshot).players.p0.prevPos =
        snapshot.players.p0.prevPos) := by
  refine ⟨?_, by decide, by decide, by decide, by decide, ?_⟩
  · intro t
    cases t <;> decide
  · intro current snapshot
    exact ⟨rfl, rfl, rfl, rfl⟩

/-- C1: the per-tick pipeline is deterministic — invoking it twice from the
same snapshot with the same fixed sequence of per-tick input pairs produces
bit-identical resulting state and an identical checksum sequence, and in
particular replaying any single tick twice with the same inputs yields
bit-identical resulting state and checksum. -/
theorem C1_determinism :
    (∀ (s1 s2 : State) (ins1 ins2 : List InputPair), s1 = s2 → ins1 = ins2 →
      runTrace s1 ins1 = runTrace s2 ins2) ∧
    (∀ (s1 s2 : State) (i1 i2 : InputPair), s1 = s2 → i1 = i2 →
      tickPipeline s1 i1 = tickPipeline s2 i2) := by
  constructor
  · intro s1 s2 ins1 ins2 hs hi
    rw [hs, hi]
  · intro s1 s2 i1 i2 hs hi
    rw [hs, hi]

/-- Witness for C1 at a concrete snapshot and input sequence: two runs over
the same three-tick input sequence agree, as do two replays of one tick. -/
theorem C1_determinism_witness :
    runTrace initialState [⟨⟨1⟩, ⟨2⟩⟩, ⟨⟨0⟩, ⟨4⟩⟩, ⟨⟨8⟩, ⟨0⟩⟩] =
      runTrace initialState [⟨⟨1⟩, ⟨2⟩⟩, ⟨⟨0⟩, ⟨4⟩⟩, ⟨⟨8⟩, ⟨0⟩⟩] ∧
    tickPipeline roundState0 ⟨⟨1⟩, ⟨2⟩⟩ = tickPipeline roundState0 ⟨⟨1⟩, ⟨2⟩⟩ :=
  ⟨C1_determinism.1 initialState initialState _ _ rfl rfl,
   C1_determinism.2 roundState0 roundState0 _ _ rfl rfl⟩

/-- C3: every execution order of the Round-phase tick that respects the
schedule constraints declared in src/src/main.rs runs
update_attacker_state before apply_inputs, apply_inputs before
move_players, move_players before check_round_end, and every gameplay
system strictly before checksum_players; and in the Round phase the
ROLLBACK_SYSTEMS stage computes exactly that composition, with the
Checksum Accumulator applied last by the pipeline. -/
theorem C3_system_order :
    (∀ order : List GameSystem, respectsConstraints order →
      order.indexOf GameSystem.updateAttackerStateS < order.indexOf GameSystem.applyInputsS ∧
      order.indexOf GameSystem.applyInputsS < order.indexOf GameSystem.movePlayersS ∧
      order.indexOf GameSystem.movePlayersS < order.indexOf GameSystem.checkRoundEndS ∧
      (∀ g : GameSystem, g ≠ GameSystem.checksumPlayersS →
        order.indexOf g < order.indexOf GameSystem.checksumPlayersS)) ∧
    (∀ (s : State) (inp : InputPair), s.roundState = RoundStage.round →
      runRollbackSystems s inp =
        Except.ok (check_round_end (move_players (apply_inputs (update_attacker_state s) inp))) ∧
      tickPipeline s inp =
        Except.ok (checksum_players (check_round_end (move_players
          (apply_inputs (update_attacker_state { s with frameCount := s.frameCount + 1 }) inp))))) := by
  constructor
  · intro order h
    refine ⟨h (GameSystem.updateAttackerStateS, GameSystem.applyInputsS) (by simp [scheduleConstraints]),
      h (GameSystem.applyInputsS, GameSystem.movePlayersS) (by simp [scheduleConstraints]),
      h (GameSystem.movePlayersS, GameSystem.checkRoundEndS) (by simp [scheduleConstraints]), ?_⟩
    intro g hg
    cases g with
    | updateAttackerStateS =>
      exact h (GameSystem.updateAttackerStateS, GameSystem.checksumPlayersS) (by simp [scheduleConstraints])
    | applyInputsS =>
      exact h (GameSystem.applyInputsS, GameSystem.checksumPlayersS) (by simp [scheduleConstraints])
    | movePlayersS =>
      exact h (GameSystem.movePlayersS, GameSystem.checksumPlayersS) (by simp [scheduleConstraints])
    | checkRoundEndS =>
      exact h (GameSystem.checkRoundEndS, GameSystem.checksumPlayersS) (by simp [scheduleConstraints])
    | checksumPlayersS => exact absurd rfl hg
  · intro s inp hs
    obtain ⟨fc, ps, ck, rs, rd⟩ := s
    simp only at hs
    subst hs
    exact ⟨rfl, rfl⟩

/-- Witness for C3: the canonical scheduler order respects the constraints
and has the claimed relative order, and a concrete Round-phase tick computes
the composition. -/
theorem C3_system_order_witness :
    canonicalOrder.indexOf GameSystem.movePlayersS <
      canonicalOrder.indexOf GameSystem.checkRoundEndS ∧
    runRollbackSystems roundState0 ⟨⟨1⟩, ⟨0⟩⟩ =
      Except.ok (check_round_end (move_players
        (apply_inputs (update_attacker_state roundState0) ⟨⟨1⟩, ⟨0⟩⟩))) :=
  ⟨(C3_system_order.1 canonicalOrder (by
      show ∀ c ∈ scheduleConstraints, canonicalOrder.indexOf c.1 < canonicalOrder.indexOf c.2
      decide)).2.2.1,
   (C3_system_order.2 roundState0 ⟨⟨1⟩, ⟨0⟩⟩ rfl).1⟩

/-- C6: the physics step integrates over the fixed tick duration
DT = 1/60 s with semi-implicit (symplectic) integration — for every entity
the previous position is recorded before the position update, the velocity
is updated from the accumulated force first, the position is then updated
from the NEW velocity (and this genuinely differs from explicit Euler), and
move_players applies this step to every player entity. -/
theorem C6_symplectic_integration :
    FPS = 60 ∧ DT = 1 / 60 ∧
    (∀ p : Player,
      (integrateEntity p).prevPos = p.pos ∧
      (integrateEntity p).vel = Vec2.add p.vel (Vec2.smul DT p.force) ∧
      (integrateEntity p).pos = Vec2.add p.pos (Vec2.smul DT (integrateEntity p).vel)) ∧
    (∀ s : State,
      (move_players s).players.p0 = integrateEntity s.players.p0 ∧
      (move_players s).players.p1 = integrateEntity s.players.p1) ∧
    (integrateEntity { initialPlayer with force := ⟨60, 0⟩ }).pos ≠
      Vec2.add initialPlayer.pos (Vec2.smul DT initialPlayer.vel) := by
  refine ⟨rfl, by norm_num [DT, FPS], ?_, ?_, ?_⟩
  · intro p
    exact ⟨rfl, rfl, rfl⟩
  · intro s
    exact ⟨rfl, rfl⟩
  · simp [integrateEntity, Vec2.add, Vec2.smul, initialPlayer, DT, FPS, Vec2.mk.injEq]

/-- C8: the Input Applier applied to player i's Input Record mutates only
player i's own entity (and there only the accumulated force consumed by
physics later in the tick); every other player's entity state is unchanged
by the application of player i's record. -/
theorem C8_input_frame :
    (∀ (ps : Players) (i : PIdx) (r : Input) (j : PIdx), j ≠ i →
      (apply_record ps i r).get j = ps.get j) ∧
    (∀ (ps : Players) (i : PIdx) (r : Input),
      (apply_record ps i r).get i = apply_one_input (ps.get i) r) ∧
    (∀ (p : Player) (r : Input),
      (apply_one_input p r).pos = p.pos ∧ (apply_one_input p r).vel = p.vel ∧
      (apply_one_input p r).prevPos = p.prevPos ∧
      (apply_one_input p r).attacker = p.attacker ∧
      (apply_one_input p r).alive = p.alive ∧
      (apply_one_input p r).transform = p.transform) ∧
    (∀ (s : State) (inp : InputPair),
      (apply_inputs s inp).players.p0 = apply_one_input s.players.p0 inp.i0 ∧
      (apply_inputs s inp).players.p1 = apply_one_input s.players.p1 inp.i1) := by
  refine ⟨?_, ?_, ?_, ?_⟩
  · intro ps i r j hj
    cases i <;> cases j
    · exact absurd rfl hj
    · rfl
    · rfl
    · exact absurd rfl hj
  · intro ps i r
    cases i <;> rfl
  · intro p r
    exact ⟨rfl, rfl, rfl, rfl, rfl, rfl⟩
  · intro s inp
    exact ⟨rfl, rfl⟩

/-- Witness for C8 at a concrete input: applying player 0's record leaves
player 1's entity untouched. -/
theorem C8_input_frame_witness :
    (apply_record { p0 := initialPlayer, p1 := deadPlayer } PIdx.zero ⟨15⟩).get PIdx.one =
      Players.get { p0 := initialPlayer, p1 := deadPlayer } PIdx.one :=
  C8_input_frame.1 { p0 := initialPlayer, p1 := deadPlayer } PIdx.zero ⟨15⟩ PIdx.one (by decide)

/-- C7: the Round-Progress Evaluator outcome is a pure function of the
player set and is unchanged under any permutation of the order in which the
players are evaluated; in particular evaluating a state's two players in
reversed index order declares the same outcome. -/
theorem C7_outcome_perm_invariant :
    (∀ (l l' : List (PIdx × Player)), l.Perm l' → round_outcome l = round_outcome l') ∧
    (∀ s : State, round_outcome (playerList s) =
      round_outcome [(PIdx.one, s.players.p1), (PIdx.zero, s.players.p0)]) := by
  have main : ∀ (l l' : List (PIdx × Player)), l.Perm l' →
      round_outcome l = round_outcome l' := by
    intro l l' h
    unfold round_outcome
    have hc : l.countP (fun pp => !pp.2.alive) = l'.countP (fun pp => !pp.2.alive) :=
      h.countP_eq _
    have hw := singletonWinner_perm _ _ (h.filter (fun pp => pp.2.alive))
    rw [hc, hw]
  exact ⟨main, fun s => main _ _ (List.Perm.swap _ _ _)⟩

/-- Witness for C7 at concrete player lists: one player is eliminated and
swapping the evaluation order declares the same winner. -/
theorem C7_outcome_perm_invariant_witness :
    round_outcome [(PIdx.zero, initialPlayer), (PIdx.one, deadPlayer)] =
      round_outcome [(PIdx.one, deadPlayer), (PIdx.zero, initialPlayer)] :=
  C7_outcome_perm_invariant.1 _ _ (List.Perm.swap (PIdx.one, deadPlayer) (PIdx.zero, initialPlayer) [])

/-- C4: the per-tick checksum is a single digest below the fixed width
2^64; it is a function of exactly the replicated fields folded in fixed
order (tick counter, each player's position, velocity, role flag, alive flag
in player-index order, Round Data) — two states agreeing on those fields
have equal checksums, so nothing outside them (previous position, force,
presentation transform, stored checksum, phase) is included — and every one
of those fields genuinely feeds the digest. -/
theorem C4_checksum_fields :
    (∀ s : State, checksumState s < 2 ^ CHECKSUM_WIDTH) ∧
    (∀ s t : State, checksummedProj s = checksummedProj t →
      checksumState s = checksumState t) ∧
    checksumState { initialState with frameCount := 1 } ≠ checksumState initialState ∧
    checksumState (withP0 (fun p => { p with pos := ⟨1, 0⟩ }) initialState) ≠
      checksumState initialState ∧
    checksumState (withP0 (fun p => { p with vel := ⟨1, 0⟩ }) initialState) ≠
      checksumState initialState ∧
    checksumState (withP0 (fun p => { p with attacker := true }) initialState) ≠
      checksumState initialState ∧
    checksumState (withP0 (fun p => { p with alive := false }) initialState) ≠
      checksumState initialState ∧
    checksumState (withP1 (fun p => { p with pos := ⟨1, 0⟩ }) initialState) ≠
      checksumState initialState ∧
    checksumState (withP1 (fun p => { p with vel := ⟨1, 0⟩ }) initialState) ≠
      checksumState initialState ∧
    checksumState (withP1 (fun p => { p with attacker := true }) initialState) ≠
      checksumState initialState ∧
    checksumState (withP1 (fun p => { p with alive := false }) initialState) ≠
      checksumState initialState ∧
    checksumState { initialState with
        roundData := { initialState.roundData with wins0 := 1 } } ≠
      checksumState initialState := by
  refine ⟨?_, ?_, by decide, by decide, by decide, by decide, by decide, by decide,
    by decide, by decide, by decide, by decide⟩
  · intro s
    unfold checksumState
    exact foldl_hashCombine_lt _ _ (by simp [checksumFieldList])
  · intro s t h
    simp only [checksummedProj, Prod.mk.injEq] at h
    obtain ⟨h1, ⟨h2a, h2b, h2c, h2d⟩, ⟨h3a, h3b, h3c, h3d⟩, h4⟩ := h
    unfold checksumState checksumFieldList encPlayerFields encRoundDataFields
    rw [h1, h2a, h2b, h2c, h2d, h3a, h3b, h3c, h3d, h4]

/-- Witness for C4 at a concrete pair of states: changing only the stored
checksum and player 0's previous position and force — fields outside the
folded set — leaves the digest unchanged. -/
theorem C4_checksum_fields_witness :
    checksumState (withP0 (fun p => { p with prevPos := ⟨9, 9⟩, force := ⟨5, 5⟩ })
      { initialState with checksum := 999 }) = checksumState initialState :=
  C4_checksum_fields.2.1 _ _ rfl
